import Mathlib

/-!
# KumoHax backend — shallow embedding and verification

This file embeds the CSV-to-prediction ingestion and risk-aggregation
pipeline of the KumoHax backend (`backend/src/server.ts` and
`backend/src/services/kumoRFMService.ts`) in Lean 4 and proves, or refutes,
the specified properties of that pipeline.

Modelling conventions:
* JavaScript numbers are rationals (`ℚ`); the value `NaN` is represented by
  `none` in `Option ℚ` where it can arise (`Number(...)` casts, averages).
* CSV cells after `csv-parse` with `cast: true` are `CSVValue`: either a
  string or a number (numeric-looking cells are cast to numbers by the
  parser). An absent column is `none`.
* Nondeterminism (`Math.random()`, `nanoid`, wall-clock time, and the
  external prediction service) is packaged in an `Env` of oracle functions,
  so every operation is a pure function of the environment and its inputs.
* JavaScript objects used as string-keyed maps (`labResults`, `vitalSigns`)
  are association lists in insertion order.
-/

/-- A CSV cell value after `csv-parse` with `cast: true`: numeric-looking
cells become numbers, everything else stays a string. -/
inductive CSVValue where
  | str (s : String)
  | num (q : ℚ)
deriving DecidableEq, Repr

/-- JavaScript truthiness of a cell value: a string is truthy iff non-empty,
a number is truthy iff non-zero (`NaN` cells do not arise from `cast`). -/
def CSVValue.truthy : CSVValue → Bool
  | .str s => s ≠ ""
  | .num q => q ≠ 0

/-- Truthiness of a possibly-absent cell (`undefined` is falsy). -/
def truthyO : Option CSVValue → Bool
  | none => false
  | some v => v.truthy

/-- JavaScript string coercion of a cell value. -/
def CSVValue.toStr : CSVValue → String
  | .str s => s
  | .num q => toString q

/-- JavaScript `s.trim()`: strip leading and trailing whitespace
(structural character-list version of string trimming). -/
def jsTrim (s : String) : String :=
  ⟨((s.toList.dropWhile Char.isWhitespace).reverse.dropWhile Char.isWhitespace).reverse⟩

/-- Split a character list at every occurrence of the separator `c`; the
result is always non-empty (splitting the empty list yields one empty
group), matching JavaScript `String.prototype.split` with a one-character
separator. -/
def splitOnChar (c : Char) : List Char → List (List Char)
  | [] => [[]]
  | x :: xs =>
      match splitOnChar c xs with
      | [] => [[]]
      | g :: gs => if x = c then [] :: g :: gs else (x :: g) :: gs

/-- JavaScript `s.split(',')`. -/
def jsSplitComma (s : String) : List String :=
  (splitOnChar ',' s.toList).map fun cs => ⟨cs⟩

/-- The digit value of a character list, when it is all digits. -/
def digitsVal (u : List Char) : Option ℕ :=
  if u.all Char.isDigit then
    some (u.foldl (fun a c => a * 10 + (c.toNat - 48)) 0)
  else none

/-- `Number(s)` on a string, for the decimal literals that occur in CSV
cells: trimmed; empty/whitespace-only is `0`; otherwise an optional sign
followed by a decimal literal. `none` stands for `NaN`. -/
def strToNumber (s : String) : Option ℚ :=
  let t := (jsTrim s).toList
  if t = [] then some 0
  else
    let sb : ℚ × List Char :=
      match t with
      | '-' :: rest => (-1, rest)
      | '+' :: rest => (1, rest)
      | _ => (1, t)
    match splitOnChar '.' sb.2 with
    | [i] =>
        if i = [] then none
        else (digitsVal i).map fun n => sb.1 * (n : ℚ)
    | [i, f] =>
        if i = [] ∧ f = [] then none
        else
          match digitsVal i, digitsVal f with
          | some ni, some nf =>
              some (sb.1 * ((ni : ℚ) + (nf : ℚ) / ((10 : ℚ) ^ f.length)))
          | _, _ => none
    | _ => none

/-- `Number(x)` on a possibly-absent cell: `Number(undefined) = NaN`,
a number is itself, a string is parsed. `none` stands for `NaN`. -/
def jsNumber : Option CSVValue → Option ℚ
  | none => none
  | some (.num q) => some q
  | some (.str s) => strToNumber s

/-- `x || d` on a possibly-absent number (`0` and `NaN`-free here: absent or
zero falls back to the default). -/
def jsOrNum (o : Option ℚ) (d : ℚ) : ℚ :=
  match o with
  | none => d
  | some v => if v = 0 then d else v

/-- `x || d` on a possibly-absent array: an array value is always truthy in
JavaScript, so only absence falls back to the default. -/
def jsOrArr {α : Type} (o : Option (List α)) (d : List α) : List α :=
  o.getD d

/-- A named risk factor of a prediction (`riskFactors` entries in
`kumoRFMService.ts`). -/
structure RiskFactor where
  factor : String
  impact : ℚ
  confidence : ℚ
deriving DecidableEq, Repr

/-- `PatientProfile` from `kumoRFMService.ts`. `age` is `Option ℚ` because
`Number(record.age)` can be `NaN` (`none`); `sex` is `Option String` because
the unchecked `record.sex as 'M' | 'F'` cast can leave the field `undefined`
or a non-string cast value, neither of which ever compares equal to a string
filter. -/
structure PatientProfile where
  id : String
  age : Option ℚ
  sex : Option String
  race : String
  medications : List String
  comorbidities : List String
  labResults : List (String × Option ℚ)
  vitalSigns : List (String × Option ℚ)
deriving DecidableEq, Repr

/-- `RiskPrediction` from `kumoRFMService.ts`. -/
structure RiskPrediction where
  patientId : String
  riskScore : ℚ
  predictedEvents : List String
  riskFactors : List RiskFactor
  lastUpdated : String
deriving DecidableEq, Repr

/-- The payload fields read off a successful external-service response
(`response.data` in `predictRisk`); each is optional because the service is
an opaque black box. -/
structure ExtResponse where
  risk_score : Option ℚ
  predicted_events : Option (List String)
  risk_factors : Option (List RiskFactor)
deriving DecidableEq, Repr

/-- Oracle environment packaging every source of nondeterminism of the
service: the configured API key, the `Math.random()` draws and shuffle used
by `getMockRiskPrediction` (keyed by patient id), the outcome of the external
`POST /predict` call, the current timestamp, and the `nanoid(8)` generator
(keyed by a per-upload row counter). -/
structure Env where
  apiKey : String
  rand : String → ℚ
  shuffle : String → List String → List String
  sliceLen : String → ℕ
  extCall : PatientProfile → Except String ExtResponse
  now : String
  nanoid : ℕ → String

/-- The fixed catalogue of adverse-event labels in
`getMockRiskPrediction`. -/
def possibleEvents : List String :=
  ["Hepatotoxicity", "Cardiac Arrhythmia", "Renal Function Decline",
   "GI Bleeding", "Hypoglycemia", "Hyperkalemia", "Drug Interaction"]

/-- `KumoRFMService.getMockRiskPrediction`: risk score
`Math.random() * 0.7 + 0.1`; predicted events are a random shuffle of the
catalogue truncated to `Math.floor(Math.random() * 3) + 1` entries (the
shuffle and length draws are supplied by the environment); fixed risk
factors. -/
def getMockRiskPrediction (env : Env) (patientId : String) : RiskPrediction :=
  { patientId := patientId
    riskScore := env.rand patientId * (7 / 10) + 1 / 10
    predictedEvents := (env.shuffle patientId possibleEvents).take (env.sliceLen patientId)
    riskFactors :=
      [⟨"Age", 3 / 10, 9 / 10⟩,
       ⟨"Medication Interactions", 1 / 4, 17 / 20⟩,
       ⟨"Comorbidities", 1 / 5, 4 / 5⟩]
    lastUpdated := env.now }

/-- The `try` block of `KumoRFMService.predictRisk`: with no API key return
the mock prediction, otherwise call the external service and map its
response through the `|| default` fallbacks; a failed call is the thrown
error. -/
def predictRiskAttempt (env : Env) (p : PatientProfile) : Except String RiskPrediction :=
  if env.apiKey = "" then .ok (getMockRiskPrediction env p.id)
  else
    match env.extCall p with
    | .error e => .error e
    | .ok resp =>
        .ok { patientId := p.id
              riskScore := jsOrNum resp.risk_score 0
              predictedEvents := jsOrArr resp.predicted_events []
              riskFactors := jsOrArr resp.risk_factors []
              lastUpdated := env.now }

/-- `KumoRFMService.predictRisk`: the `try` block with its `catch`, which
falls back to the mock prediction on any error. -/
def predictRisk (env : Env) (p : PatientProfile) : RiskPrediction :=
  match predictRiskAttempt env p with
  | .ok pred => pred
  | .error _ => getMockRiskPrediction env p.id

/-- `KumoRFMService.batchPredict`: the input is consumed in chunks of 5
(`slice(i, i + 5)`); within a chunk every patient is predicted (the per-item
`.catch` is unreachable because `predictRisk` is total) and the results are
appended in order. The inter-chunk `setTimeout` delay has no observable
effect on the value. -/
def batchPredict (env : Env) : List PatientProfile → List RiskPrediction
  | [] => []
  | p :: rest =>
      (p :: rest.take 4).map (predictRisk env) ++ batchPredict env (rest.drop 4)
termination_by ps => ps.length
decreasing_by
  simp only [List.length_drop, List.length_cons]
  omega

/-- A parsed CSV data row as seen by the `POST /api/data/upload-csv` handler
(`csv-parse` with `columns: true`, `cast: true`): the columns the handler
reads, each possibly absent. -/
structure CSVRecord where
  patient_id : Option CSVValue := none
  age : Option CSVValue := none
  sex : Option CSVValue := none
  race : Option CSVValue := none
  medications : Option CSVValue := none
  comorbidities : Option CSVValue := none
  creatinine : Option CSVValue := none
  alt : Option CSVValue := none
  ast : Option CSVValue := none
  hemoglobin : Option CSVValue := none
  bp_systolic : Option CSVValue := none
  bp_diastolic : Option CSVValue := none
  heart_rate : Option CSVValue := none
  study_group : Option CSVValue := none
deriving DecidableEq, Repr

/-- String interpolation of a possibly-absent cell
(template literals print `undefined` for an absent value). -/
def csvCellStr : Option CSVValue → String
  | none => "undefined"
  | some v => v.toStr

/-- `record.patient_id || P-nanoid(8)`: keep a truthy id cell, otherwise
generate an id (the `nanoid` draw is supplied by the environment, keyed by
the row counter). -/
def idOf (env : Env) (idx : ℕ) (r : CSVRecord) : String :=
  match r.patient_id with
  | some v => if v.truthy then v.toStr else "P-" ++ env.nanoid idx
  | none => "P-" ++ env.nanoid idx

/-- `record.sex as 'M' | 'F'`: an unchecked cast, so only a string cell
yields a string value; an absent or number-cast cell leaves the field
without a string value (it then never compares equal to a string). -/
def sexOf (r : CSVRecord) : Option String :=
  match r.sex with
  | some (.str s) => some s
  | _ => none

/-- `record.race || 'Unknown'`. -/
def raceOf (r : CSVRecord) : String :=
  match r.race with
  | some v => if v.truthy then v.toStr else "Unknown"
  | none => "Unknown"

/-- `record.study_group || 'default'`. -/
def studyGroupOf (r : CSVRecord) : String :=
  match r.study_group with
  | some v => if v.truthy then v.toStr else "default"
  | none => "default"

/-- `s.split(',').map(m => m.trim())`. -/
def splitTrim (s : String) : List String :=
  (jsSplitComma s).map jsTrim

/-- `cell ? cell.split(',').map(trim) : []`: a falsy cell yields `[]`; a
truthy string splits; a truthy number throws a `TypeError` (`split` is not
a function on numbers), which is the row-level error of the handler. -/
def parseListCell : Option CSVValue → Except String (List String)
  | none => .ok []
  | some v =>
      if v.truthy then
        match v with
        | .str s => .ok (splitTrim s)
        | .num _ => .error "split is not a function"
      else .ok []

/-- One conditional spread `...(cell && { name: Number(cell) })`: a truthy
cell contributes the entry, a falsy cell (absent, empty string, or the
number `0`) contributes nothing. -/
def labEntry (name : String) (cell : Option CSVValue) : List (String × Option ℚ) :=
  if truthyO cell then [(name, jsNumber cell)] else []

/-- The `labResults` object literal of the handler. -/
def labResultsOf (r : CSVRecord) : List (String × Option ℚ) :=
  labEntry "creatinine" r.creatinine ++ labEntry "alt" r.alt ++
    labEntry "ast" r.ast ++ labEntry "hemoglobin" r.hemoglobin

/-- The `vitalSigns` object literal of the handler. -/
def vitalSignsOf (r : CSVRecord) : List (String × Option ℚ) :=
  labEntry "bp_systolic" r.bp_systolic ++ labEntry "bp_diastolic" r.bp_diastolic ++
    labEntry "heart_rate" r.heart_rate

/-- The `patientProfile` object literal of the upload handler's loop body,
with the two `.split` sites as the only throw points (evaluated in source
order: `medications` before `comorbidities`). `Number(record.age)` never
throws; a non-numeric cell yields `NaN`. -/
def processRow (env : Env) (idx : ℕ) (r : CSVRecord) : Except String PatientProfile :=
  match parseListCell r.medications with
  | .error e => .error e
  | .ok meds =>
      match parseListCell r.comorbidities with
      | .error e => .error e
      | .ok coms =>
          .ok { id := idOf env idx r
                age := jsNumber r.age
                sex := sexOf r
                race := raceOf r
                medications := meds
                comorbidities := coms
                labResults := labResultsOf r
                vitalSigns := vitalSignsOf r }

/-- A `results.predictions` element: the prediction spread together with the
`studyGroup` and `originalData` fields added by the handler. -/
structure EnrichedPrediction where
  pred : RiskPrediction
  studyGroup : String
  originalData : CSVRecord
deriving DecidableEq, Repr

/-- The mutable state of the upload handler while looping over records: the
`results` object (`processed`, `predictions`, `errors`), the module-level
`patients` array, and the row counter keying `nanoid` draws. -/
structure UploadAcc where
  processed : ℕ
  predictions : List EnrichedPrediction
  errors : List String
  store : List PatientProfile
  idx : ℕ
deriving DecidableEq, Repr

/-- The per-row error message pushed by the `catch` of the loop body. -/
def rowErrMsg (r : CSVRecord) (e : String) : String :=
  "Error processing patient " ++ csvCellStr r.patient_id ++ ": " ++ e

/-- One iteration of the upload loop: on success push the enriched
prediction, bump `processed`, and append the profile to the store; on a
thrown transformation error push one message onto `errors` and touch nothing
else. -/
def uploadStep (env : Env) (acc : UploadAcc) (r : CSVRecord) : UploadAcc :=
  match processRow env acc.idx r with
  | .ok pp =>
      { acc with
        predictions := acc.predictions ++
          [{ pred := predictRisk env pp, studyGroup := studyGroupOf r, originalData := r }]
        processed := acc.processed + 1
        store := acc.store ++ [pp]
        idx := acc.idx + 1 }
  | .error e =>
      { acc with errors := acc.errors ++ [rowErrMsg r e], idx := acc.idx + 1 }

/-- The upload loop over all parsed records. -/
def uploadRows (env : Env) (acc : UploadAcc) : List CSVRecord → UploadAcc
  | [] => acc
  | r :: rest => uploadRows env (uploadStep env acc r) rest

/-- The `POST /api/data/upload-csv` handler after parsing: fresh `results`
counters over the current store. An empty or header-only file parses to an
empty record list. -/
def uploadCSV (env : Env) (store : List PatientProfile) (rows : List CSVRecord) : UploadAcc :=
  uploadRows env ⟨0, [], [], store, 0⟩ rows

/-- The profiles appended to the store by a run of the upload loop starting
at row counter `idx`: one per record whose transformation succeeds. -/
def okProfiles (env : Env) : ℕ → List CSVRecord → List PatientProfile
  | _, [] => []
  | idx, r :: rest =>
      match processRow env idx r with
      | .ok pp => pp :: okProfiles env (idx + 1) rest
      | .error _ => okProfiles env (idx + 1) rest

/-- The seed `patients` array of `server.ts`. -/
def seedPatients : List PatientProfile :=
  [{ id := "P-1001", age := some 72, sex := some "F", race := "White"
     medications := ["metformin", "lisinopril", "atorvastatin"]
     comorbidities := ["diabetes", "hypertension", "hyperlipidemia"]
     labResults := [("creatinine", some (6/5)), ("alt", some 45), ("ast", some 38)]
     vitalSigns := [("bp_systolic", some 145), ("bp_diastolic", some 92), ("heart_rate", some 78)] },
   { id := "P-1002", age := some 28, sex := some "M", race := "Asian"
     medications := ["fluoxetine", "ibuprofen"]
     comorbidities := ["depression"]
     labResults := [("creatinine", some (9/10)), ("alt", some 22), ("ast", some 25)]
     vitalSigns := [("bp_systolic", some 120), ("bp_diastolic", some 75), ("heart_rate", some 68)] },
   { id := "P-1003", age := some 55, sex := some "M", race := "Black"
     medications := ["warfarin", "metoprolol", "furosemide"]
     comorbidities := ["atrial_fibrillation", "heart_failure"]
     labResults := [("creatinine", some (9/5)), ("alt", some 55), ("ast", some 48), ("inr", some (23/10))]
     vitalSigns := [("bp_systolic", some 110), ("bp_diastolic", some 65), ("heart_rate", some 55)] }]

/-- The `filters` object of a `POST /api/cohorts/analyze` request body:
each criterion possibly absent. -/
structure CohortFilters where
  ageMin : Option ℚ := none
  ageMax : Option ℚ := none
  sex : Option String := none
  medications : Option (List String) := none
deriving DecidableEq, Repr

/-- `p.age >= a` for a possibly-`NaN` age: any comparison with `NaN` is
false. -/
def ageGe (age : Option ℚ) (a : ℚ) : Bool :=
  match age with
  | none => false
  | some x => a ≤ x

/-- `p.age <= a` for a possibly-`NaN` age. -/
def ageLe (age : Option ℚ) (a : ℚ) : Bool :=
  match age with
  | none => false
  | some x => x ≤ a

/-- `if (filters?.ageMin) filter(p.age >= ageMin)`: applied only when the
criterion is present and truthy (non-zero). -/
def applyAgeMin (o : Option ℚ) (ps : List PatientProfile) : List PatientProfile :=
  match o with
  | some a => if a ≠ 0 then ps.filter (fun p => ageGe p.age a) else ps
  | none => ps

/-- `if (filters?.ageMax) filter(p.age <= ageMax)`. -/
def applyAgeMax (o : Option ℚ) (ps : List PatientProfile) : List PatientProfile :=
  match o with
  | some a => if a ≠ 0 then ps.filter (fun p => ageLe p.age a) else ps
  | none => ps

/-- `if (filters?.sex) filter(p.sex === sex)`: a non-empty string criterion
is truthy. -/
def applySex (o : Option String) (ps : List PatientProfile) : List PatientProfile :=
  match o with
  | some s => if s ≠ "" then ps.filter (fun p => p.sex = some s) else ps
  | none => ps

/-- `if (filters?.medications && filters.medications.length > 0)
filter(medications.some(med => p.medications.includes(med)))`: an array is
always truthy, so only the length guard matters. -/
def applyMeds (o : Option (List String)) (ps : List PatientProfile) : List PatientProfile :=
  match o with
  | some l =>
      if 0 < l.length then
        ps.filter (fun p => l.any (fun med => p.medications.contains med))
      else ps
  | none => ps

/-- The four sequential filter applications of the cohort-analysis
handler, in source order. -/
def applyFilters (f : CohortFilters) (ps : List PatientProfile) : List PatientProfile :=
  applyMeds f.medications (applySex f.sex (applyAgeMax f.ageMax (applyAgeMin f.ageMin ps)))

/-- The response body of `POST /api/cohorts/analyze`. -/
structure CohortResult where
  cohortSize : ℕ
  averageRisk : Option ℚ
  highRiskCount : ℕ
  predictions : List RiskPrediction
deriving DecidableEq, Repr

/-- JavaScript division as used for the average: dividing by `0` yields the
non-finite `NaN` (`0/0`, the empty-cohort case here) or `±Infinity`, both
modelled as `none`. -/
def jsDiv (a b : ℚ) : Option ℚ :=
  if b = 0 then none else some (a / b)

/-- The `POST /api/cohorts/analyze` handler: filter the store, batch-predict
the filtered subset, and aggregate (`reduce` of risk scores divided by the
prediction count, and the count of predictions with `riskScore > 0.7`). -/
def analyzeCohort (env : Env) (f : CohortFilters) (ps : List PatientProfile) : CohortResult :=
  let fps := applyFilters f ps
  let preds := batchPredict env fps
  { cohortSize := fps.length
    averageRisk := jsDiv (preds.foldl (fun s p => s + p.riskScore) 0) (preds.length : ℚ)
    highRiskCount := (preds.filter (fun p => 7 / 10 < p.riskScore)).length
    predictions := preds }

theorem predictRisk_patientId (env : Env) (p : PatientProfile) :
    (predictRisk env p).patientId = p.id := by
  unfold predictRisk predictRiskAttempt getMockRiskPrediction
  by_cases h : env.apiKey = "" <;> simp [h]
  cases env.extCall p <;> simp

theorem batchPredict_eq_map (env : Env) (ps : List PatientProfile) :
    batchPredict env ps = ps.map (predictRisk env) := by
  generalize hn : ps.length = n
  induction n using Nat.strong_induction_on generalizing ps with
  | _ n ih =>
    cases ps with
    | nil => simp [batchPredict]
    | cons p rest =>
      rw [batchPredict]
      rw [ih ((rest.drop 4).length) (by simp [← hn]; omega) (rest.drop 4) rfl]
      simp only [List.map_cons, List.cons_append, ← List.map_append,
        List.take_append_drop]

theorem uploadRows_counts (env : Env) (rows : List CSVRecord) :
    ∀ acc : UploadAcc,
      (uploadRows env acc rows).processed + (uploadRows env acc rows).errors.length
        = acc.processed + acc.errors.length + rows.length := by
  induction rows with
  | nil => intro acc; simp [uploadRows]
  | cons r rest ih =>
    intro acc
    rw [uploadRows, ih]
    unfold uploadStep
    cases processRow env acc.idx r <;> simp <;> omega

theorem uploadRows_store_eq (env : Env) (rows : List CSVRecord) :
    ∀ acc : UploadAcc,
      (uploadRows env acc rows).store = acc.store ++ okProfiles env acc.idx rows := by
  induction rows with
  | nil => intro acc; simp [uploadRows, okProfiles]
  | cons r rest ih =>
    intro acc
    rw [uploadRows, ih]
    cases h : processRow env acc.idx r <;>
      simp [uploadStep, okProfiles, h, List.append_assoc]

theorem processRow_ok_fields (env : Env) (idx : ℕ) (r : CSVRecord)
    (pp : PatientProfile) (hok : processRow env idx r = .ok pp) :
    pp.labResults = labResultsOf r ∧ pp.vitalSigns = vitalSignsOf r := by
  unfold processRow at hok
  cases h1 : parseListCell r.medications with
  | error e => simp [h1] at hok
  | ok meds =>
    cases h2 : parseListCell r.comorbidities with
    | error e => simp [h1, h2] at hok
    | ok coms =>
      simp only [h1, h2, Except.ok.injEq] at hok
      exact ⟨by rw [← hok], by rw [← hok]⟩

/-- A fixed oracle environment with no API key configured: `Math.random()`
always draws `1/2`, the shuffle is the identity, the external call (never
reached) fails, and `nanoid` returns the row counter. -/
def envMock : Env :=
  { apiKey := ""
    rand := fun _ => 1 / 2
    shuffle := fun _ l => l
    sliceLen := fun _ => 1
    extCall := fun _ => .error "unreachable"
    now := "2024-01-01T00:00:00.000Z"
    nanoid := fun n => toString n }

/-- A fixed oracle environment with an API key configured and an external
service that answers with `risk_score` `2`, outside `[0, 1]`. -/
def envExt : Env :=
  { apiKey := "key"
    rand := fun _ => 0
    shuffle := fun _ l => l
    sliceLen := fun _ => 1
    extCall := fun _ => .ok { risk_score := some 2, predicted_events := none, risk_factors := none }
    now := "2024-01-01T00:00:00.000Z"
    nanoid := fun _ => "x" }

/-- A fixed oracle environment with an API key configured and an external
service whose every call fails with a transport error. -/
def envDown : Env :=
  { apiKey := "key"
    rand := fun _ => 0
    shuffle := fun _ l => l
    sliceLen := fun _ => 1
    extCall := fun _ => .error "ECONNREFUSED"
    now := "2024-01-01T00:00:00.000Z"
    nanoid := fun _ => "x" }

/-- A concrete patient profile used to instantiate prediction theorems. -/
def patientX : PatientProfile :=
  { id := "P-X", age := some 40, sex := some "M", race := "Unknown"
    medications := [], comorbidities := [], labResults := [], vitalSigns := [] }

/-- A CSV row whose `age` cell is the non-numeric string `"abc"`. -/
def badAgeRow : CSVRecord :=
  { patient_id := some (.str "P-BAD"), age := some (.str "abc") }

/-- A CSV row whose `medications` cell was cast to a number by the parser,
so `.split` throws a `TypeError` on it. -/
def numMedsRow : CSVRecord :=
  { patient_id := some (.str "P-E"), medications := some (.num 5) }

/-- A CSV row whose `patient_id` duplicates the seeded patient `P-1001`. -/
def dupRow : CSVRecord :=
  { patient_id := some (.str "P-1001"), age := some (.num 72), sex := some (.str "F") }

/-- A CSV row whose `creatinine` cell is present and holds the number `0`,
and whose `alt` cell holds `45`. -/
def zeroCreatRow : CSVRecord :=
  { patient_id := some (.str "P-Z"), creatinine := some (.num 0), alt := some (.num 45) }

/-- The profile the upload handler builds from `zeroCreatRow`: no
`creatinine` key. -/
def zeroCreatProfile : PatientProfile :=
  { id := "P-Z", age := none, sex := none, race := "Unknown"
    medications := [], comorbidities := []
    labResults := [("alt", some 45)], vitalSigns := [] }

/-- A CSV row with `medications="a,b,c"` and `comorbidities="x, y"`. -/
def rowABC : CSVRecord :=
  { patient_id := some (.str "P-9"), medications := some (.str "a,b,c")
    comorbidities := some (.str "x, y") }

/-- The profile the upload handler builds from `rowABC`. -/
def profileABC : PatientProfile :=
  { id := "P-9", age := none, sex := none, race := "Unknown"
    medications := ["a", "b", "c"], comorbidities := ["x", "y"]
    labResults := [], vitalSigns := [] }

/-- A cohort filter matching no seeded patient (`sex === "Z"`). -/
def emptySexFilter : CohortFilters := { sex := some "Z" }

/-- A cohort filter with every criterion present but falsy. -/
def allFalsyFilter : CohortFilters :=
  { ageMin := some 0, ageMax := some 0, sex := some "", medications := some [] }

/-- C1: for every input sequence of patients of length N, `batchPredict`
returns a sequence of exactly N risk predictions, and every patient id
occurring in the input has a corresponding prediction (with that
`patientId`) in the output. -/
theorem batchPredict_length_and_ids (env : Env) (ps : List PatientProfile) :
    (batchPredict env ps).length = ps.length ∧
      ∀ p ∈ ps, ∃ q ∈ batchPredict env ps, q.patientId = p.id := by
  rw [batchPredict_eq_map]
  refine ⟨List.length_map _ _, ?_⟩
  intro p hp
  exact ⟨predictRisk env p, List.mem_map_of_mem _ hp, predictRisk_patientId env p⟩

/-- C1 witness: on the seeded three-patient store, `batchPredict` returns
three predictions and one of them carries the first seed's id. -/
theorem batchPredict_length_and_ids_inst :
    (batchPredict envMock seedPatients).length = 3 ∧
      ∃ q ∈ batchPredict envMock seedPatients, q.patientId = "P-1001" := by
  obtain ⟨h1, h2⟩ := batchPredict_length_and_ids envMock seedPatients
  have hne : seedPatients ≠ [] := by simp [seedPatients]
  obtain ⟨q, hq, hid⟩ := h2 (seedPatients.head hne) (List.head_mem hne)
  exact ⟨by rw [h1]; rfl, q, hq, by rw [hid]; rfl⟩

/-- C2 counterexample: with a credential configured and an external service
answering `risk_score = 2`, `predictRisk` returns `riskScore = 2`, outside
`[0, 1]` — the external-service path passes the reported score through
unvalidated. -/
theorem predictRisk_external_score_unclamped :
    ¬ ((predictRisk envExt patientX).riskScore ≤ 1) := by
  have h : (predictRisk envExt patientX).riskScore = 2 := by
    simp [predictRisk, predictRiskAttempt, envExt, jsOrNum]
  rw [h]; norm_num

/-- C2 (amended): every mock-path prediction — produced when no credential
is configured or when the external call fails — has `riskScore` in `[0, 1]`
(indeed in `[0.1, 0.8)`), assuming the `Math.random()` draw lies in
`[0, 1)`; on the external path `riskScore` is the service's reported value
(defaulting to `0` when absent or zero) and is not clamped to `[0, 1]`. -/
theorem predictRisk_mock_path_score_in_unit (env : Env) (p : PatientProfile)
    (h0 : 0 ≤ env.rand p.id) (h1 : env.rand p.id < 1)
    (hpath : env.apiKey = "" ∨ ∃ e, env.extCall p = .error e) :
    0 ≤ (predictRisk env p).riskScore ∧ (predictRisk env p).riskScore ≤ 1 := by
  have hmock : predictRisk env p = getMockRiskPrediction env p.id := by
    rcases hpath with h | ⟨e, he⟩
    · simp [predictRisk, predictRiskAttempt, h]
    · by_cases hk : env.apiKey = ""
      · simp [predictRisk, predictRiskAttempt, hk]
      · simp [predictRisk, predictRiskAttempt, hk, he]
  rw [hmock]
  unfold getMockRiskPrediction
  constructor
  · simp only
    nlinarith
  · simp only
    nlinarith

/-- C2 witness: the mock-path bound applied to the key-less environment
(whose `Math.random()` draw is `1/2`) and a concrete patient. -/
theorem predictRisk_mock_path_score_in_unit_inst :
    0 ≤ (predictRisk envMock patientX).riskScore ∧
      (predictRisk envMock patientX).riskScore ≤ 1 :=
  predictRisk_mock_path_score_in_unit envMock patientX
    (by norm_num [envMock]) (by norm_num [envMock]) (Or.inl rfl)

/-- C3 counterexample: a row whose `age` cell is the non-numeric string
`"abc"` does NOT produce an error: `Number("abc")` is `NaN`, not a thrown
exception, so the row is counted as processed, contributes a profile (with
`NaN` age) to the store, and the error list stays empty. -/
theorem uploadCSV_nonNumericAge_no_error :
    (uploadCSV envMock [] [badAgeRow]).errors = [] ∧
      (uploadCSV envMock [] [badAgeRow]).processed = 1 ∧
      (uploadCSV envMock [] [badAgeRow]).store.length = 1 ∧
      jsNumber badAgeRow.age = none := by
  refine ⟨by decide, by decide, by decide, by decide⟩

/-- C3 (amended): a data row whose transformation actually throws — e.g. a
`medications` or `comorbidities` cell cast to a number by the parser, on
which `.split` is not a function — appends exactly one per-row error message
to the error list, leaves `processed`, the predictions, and the store
untouched, and does not abort processing of the remaining rows; a
non-numeric `age` cell does not throw (the row is ingested with `NaN` age
and counted as processed). -/
theorem uploadRows_throwing_row_one_error (env : Env) (acc : UploadAcc)
    (r : CSVRecord) (rest : List CSVRecord) (e : String)
    (h : processRow env acc.idx r = .error e) :
    uploadRows env acc (r :: rest) =
      uploadRows env
        { acc with errors := acc.errors ++ [rowErrMsg r e], idx := acc.idx + 1 } rest := by
  rw [uploadRows]
  congr 1
  simp [uploadStep, h]

/-- C3 witness: the single-row upload of a numeric `medications` cell
records exactly the one error message and continues with the (empty) tail. -/
theorem uploadRows_throwing_row_one_error_inst :
    uploadRows envMock ⟨0, [], [], [], 0⟩ [numMedsRow] =
      uploadRows envMock
        { (⟨0, [], [], [], 0⟩ : UploadAcc) with
          errors := [] ++ [rowErrMsg numMedsRow "split is not a function"]
          idx := 0 + 1 } [] :=
  uploadRows_throwing_row_one_error envMock ⟨0, [], [], [], 0⟩ numMedsRow []
    "split is not a function" (by rfl)

/-- C4: for every parsed CSV input, `processed + errors.length` equals the
number of data rows — each row is counted exactly once, as processed or as
an error — and an empty (or header-only, which parses to no records) file
yields `processed = 0` and `errors = []`. -/
theorem uploadCSV_row_accounting (env : Env) (st : List PatientProfile)
    (rows : List CSVRecord) :
    (uploadCSV env st rows).processed + (uploadCSV env st rows).errors.length
        = rows.length ∧
      (uploadCSV env st ([] : List CSVRecord)).processed = 0 ∧
      (uploadCSV env st ([] : List CSVRecord)).errors = [] := by
  refine ⟨?_, rfl, rfl⟩
  simpa [uploadCSV] using uploadRows_counts env rows ⟨0, [], [], st, 0⟩

/-- C5: `predictRisk` never propagates an error to its caller: it is a total
function into `RiskPrediction`, and both degraded paths — no credential
configured, or a failing external call — return the mock prediction. -/
theorem predictRisk_never_fails (env : Env) (p : PatientProfile) :
    (env.apiKey = "" → predictRisk env p = getMockRiskPrediction env p.id) ∧
      (∀ e, env.extCall p = .error e →
        predictRisk env p = getMockRiskPrediction env p.id) := by
  constructor
  · intro h
    simp [predictRisk, predictRiskAttempt, h]
  · intro e he
    by_cases hk : env.apiKey = ""
    · simp [predictRisk, predictRiskAttempt, hk]
    · simp [predictRisk, predictRiskAttempt, hk, he]

/-- C5 witness: the key-less environment and the environment whose external
call fails both yield the mock prediction for a concrete patient. -/
theorem predictRisk_never_fails_inst :
    predictRisk envMock patientX = getMockRiskPrediction envMock patientX.id ∧
      predictRisk envDown patientX = getMockRiskPrediction envDown patientX.id :=
  ⟨(predictRisk_never_fails envMock patientX).1 rfl,
   (predictRisk_never_fails envDown patientX).2 "ECONNREFUSED" rfl⟩

/-- C6 counterexample: uploading a CSV row whose `patient_id` is the already
seeded `P-1001` appends a second profile with that id — the store does not
keep patient ids unique. -/
theorem uploadCSV_duplicate_id_breaks_uniqueness :
    ¬ (((uploadCSV envMock seedPatients [dupRow]).store.map (fun p => p.id)).Nodup) := by
  decide

/-- C6 (amended): ingestion appends each successfully processed profile to
the store unconditionally, with no duplicate check: after an upload the
store is the old store followed by the ingested profiles, and its ids are
pairwise distinct exactly when the old ids together with the ingested ids
are — so uploading an id already present produces a duplicate. -/
theorem uploadCSV_store_append_unique_iff (env : Env) (st : List PatientProfile)
    (rows : List CSVRecord) :
    (uploadCSV env st rows).store = st ++ okProfiles env 0 rows ∧
      (((uploadCSV env st rows).store.map (fun p => p.id)).Nodup ↔
        (((st ++ okProfiles env 0 rows).map (fun p => p.id)).Nodup)) := by
  have h : (uploadCSV env st rows).store = st ++ okProfiles env 0 rows := by
    simpa [uploadCSV] using uploadRows_store_eq env rows ⟨0, [], [], st, 0⟩
  exact ⟨h, by rw [h]⟩

/-- C7 counterexample: a present `creatinine` cell holding the numeric value
`0` yields an absent key, not a zero-valued entry — `0` is falsy, so the
conditional spread drops it. -/
theorem processRow_zero_lab_cell_dropped :
    processRow envMock 0 zeroCreatRow = .ok zeroCreatProfile ∧
      zeroCreatProfile.labResults.lookup "creatinine" = none ∧
      zeroCreatRow.creatinine = some (.num 0) :=
  ⟨by rfl, by rfl, by rfl⟩

/-- C7 (amended): for every ingested CSV row, a lab or vital-sign column
contributes a key to `labResults`/`vitalSigns` iff the source cell is
truthy — present, non-empty, and (for number-cast cells) non-zero; a present
cell cast to the number `0` is dropped exactly like a missing cell, and when
the key is present its value is the `Number(...)` cast of the cell. -/
theorem processRow_lab_vital_iff_truthy (env : Env) (idx : ℕ) (r : CSVRecord)
    (pp : PatientProfile) (hok : processRow env idx r = .ok pp) :
    pp.labResults.lookup "creatinine"
        = (if truthyO r.creatinine then some (jsNumber r.creatinine) else none) ∧
      pp.labResults.lookup "alt"
        = (if truthyO r.alt then some (jsNumber r.alt) else none) ∧
      pp.labResults.lookup "ast"
        = (if truthyO r.ast then some (jsNumber r.ast) else none) ∧
      pp.labResults.lookup "hemoglobin"
        = (if truthyO r.hemoglobin then some (jsNumber r.hemoglobin) else none) ∧
      pp.vitalSigns.lookup "bp_systolic"
        = (if truthyO r.bp_systolic then some (jsNumber r.bp_systolic) else none) ∧
      pp.vitalSigns.lookup "bp_diastolic"
        = (if truthyO r.bp_diastolic then some (jsNumber r.bp_diastolic) else none) ∧
      pp.vitalSigns.lookup "heart_rate"
        = (if truthyO r.heart_rate then some (jsNumber r.heart_rate) else none) := by
  obtain ⟨hl, hv⟩ := processRow_ok_fields env idx r pp hok
  rw [hl, hv]
  unfold labResultsOf vitalSignsOf labEntry
  refine ⟨?_, ?_, ?_, ?_, ?_, ?_, ?_⟩ <;>
    · cases h1 : truthyO r.creatinine <;> cases h2 : truthyO r.alt <;>
        cases h3 : truthyO r.ast <;> cases h4 : truthyO r.hemoglobin <;>
        cases h5 : truthyO r.bp_systolic <;> cases h6 : truthyO r.bp_diastolic <;>
        cases h7 : truthyO r.heart_rate <;>
        simp [h1, h2, h3, h4, h5, h6, h7, List.lookup]

/-- C7 witness: the amended rule applied to the concrete row whose
`creatinine` cell is the number `0` and whose `alt` cell is `45`. -/
theorem processRow_lab_vital_iff_truthy_inst :
    zeroCreatProfile.labResults.lookup "creatinine"
        = (if truthyO zeroCreatRow.creatinine then some (jsNumber zeroCreatRow.creatinine) else none) ∧
      zeroCreatProfile.labResults.lookup "alt"
        = (if truthyO zeroCreatRow.alt then some (jsNumber zeroCreatRow.alt) else none) ∧
      zeroCreatProfile.labResults.lookup "ast"
        = (if truthyO zeroCreatRow.ast then some (jsNumber zeroCreatRow.ast) else none) ∧
      zeroCreatProfile.labResults.lookup "hemoglobin"
        = (if truthyO zeroCreatRow.hemoglobin then some (jsNumber zeroCreatRow.hemoglobin) else none) ∧
      zeroCreatProfile.vitalSigns.lookup "bp_systolic"
        = (if truthyO zeroCreatRow.bp_systolic then some (jsNumber zeroCreatRow.bp_systolic) else none) ∧
      zeroCreatProfile.vitalSigns.lookup "bp_diastolic"
        = (if truthyO zeroCreatRow.bp_diastolic then some (jsNumber zeroCreatRow.bp_diastolic) else none) ∧
      zeroCreatProfile.vitalSigns.lookup "heart_rate"
        = (if truthyO zeroCreatRow.heart_rate then some (jsNumber zeroCreatRow.heart_rate) else none) :=
  processRow_lab_vital_iff_truthy envMock 0 zeroCreatRow zeroCreatProfile (by rfl)

/-- C8: for every cohort filter whose filtered patient subset is empty,
cohort analysis returns `cohortSize = 0`, `highRiskCount = 0`, an empty
prediction list, and the defined (here `NaN`, the JavaScript `0/0`)
`averageRisk` value — it does not throw. -/
theorem analyzeCohort_empty_cohort (env : Env) (f : CohortFilters)
    (ps : List PatientProfile) (h : applyFilters f ps = []) :
    analyzeCohort env f ps =
      { cohortSize := 0, averageRisk := none, highRiskCount := 0, predictions := [] } := by
  unfold analyzeCohort
  rw [h]
  simp [batchPredict, jsDiv]

/-- C8 witness: the seed store filtered by `sex === "Z"` is empty, and the
analysis of that cohort returns the empty aggregate. -/
theorem analyzeCohort_empty_cohort_inst :
    analyzeCohort envMock emptySexFilter seedPatients =
      { cohortSize := 0, averageRisk := none, highRiskCount := 0, predictions := [] } :=
  analyzeCohort_empty_cohort envMock emptySexFilter seedPatients (by decide)

/-- C9: CSV ingestion maps a `medications` (and `comorbidities`) cell by
splitting on commas and trimming each token, preserving source order and
duplicates: a non-empty string cell `s` yields exactly
`(s.split(',')).map(trim)`. -/
theorem processRow_split_trim_medications (env : Env) (idx : ℕ) (r : CSVRecord)
    (pp : PatientProfile) (s t : String)
    (hok : processRow env idx r = .ok pp)
    (hm : r.medications = some (.str s)) (hs : s ≠ "")
    (hc : r.comorbidities = some (.str t)) (ht : t ≠ "") :
    pp.medications = splitTrim s ∧ pp.comorbidities = splitTrim t := by
  have hst : CSVValue.truthy (.str s) = true := by simp [CSVValue.truthy, hs]
  have htt : CSVValue.truthy (.str t) = true := by simp [CSVValue.truthy, ht]
  unfold processRow at hok
  rw [hm, hc] at hok
  simp only [parseListCell, hst, htt, if_true, Except.ok.injEq] at hok
  exact ⟨by rw [← hok], by rw [← hok]⟩

/-- C9 witness: the row with `medications="a,b,c"` ingests to
`medications == ["a","b","c"]` (split, trimmed, order-preserved). -/
theorem processRow_split_trim_medications_inst :
    (profileABC.medications = splitTrim "a,b,c" ∧
        profileABC.comorbidities = splitTrim "x, y") ∧
      splitTrim "a,b,c" = ["a", "b", "c"] ∧
      splitTrim "x, y" = ["x", "y"] :=
  ⟨processRow_split_trim_medications envMock 0 rowABC profileABC "a,b,c" "x, y"
      (by rfl) (by rfl) (by decide) (by rfl) (by decide),
    by decide, by decide⟩

/-- C10: a cohort filter criterion whose value is falsy is treated as
absent: with `ageMin = 0`, `ageMax = 0`, `sex = ""`, or `medications = []`,
the corresponding filter is not applied and the cohort equals the one
obtained from the remaining criteria alone — a request for patients of age
at least `0` filters nothing. -/
theorem applyFilters_falsy_ignored (f : CohortFilters) (ps : List PatientProfile) :
    (f.ageMin = some 0 → applyFilters f ps = applyFilters { f with ageMin := none } ps) ∧
      (f.ageMax = some 0 → applyFilters f ps = applyFilters { f with ageMax := none } ps) ∧
      (f.sex = some "" → applyFilters f ps = applyFilters { f with sex := none } ps) ∧
      (f.medications = some [] →
        applyFilters f ps = applyFilters { f with medications := none } ps) := by
  refine ⟨?_, ?_, ?_, ?_⟩ <;> intro h <;>
    simp [applyFilters, h, applyAgeMin, applyAgeMax, applySex, applyMeds]

/-- C10 witness: on the filter whose every criterion is present but falsy,
dropping the `ageMin = 0` criterion leaves the cohort unchanged. -/
theorem applyFilters_falsy_ignored_inst :
    applyFilters allFalsyFilter seedPatients =
      applyFilters { allFalsyFilter with ageMin := none } seedPatients :=
  (applyFilters_falsy_ignored allFalsyFilter seedPatients).1 rfl
